import Mathlib

/-!
Verification of the conversational color-analysis purchase funnel:
a shallow embedding of the session state machine (server.js,
utils/ConversationManager.js) and the payment reconciliation subsystem
(utils/PaymentManager.js), with theorems settling the specification's
claims about idempotence, status monotonicity, signature checking,
analysis-failure recovery, session invariants and store operations.

Conventions of the embedding:
* JavaScript `Map` objects become association lists (`List (String × _)`)
  with `Map.set` replacing the first binding for the key (JS maps hold
  each key once) and `Map.get` becoming `List.lookup`.
* Timestamps (`new Date().toISOString()` and friends) become `Nat`
  values passed in explicitly as `now`.
* Asynchronous collaborator calls (Razorpay order fetch, Gemini image
  analysis, media download, PDF generation, payment-link creation) are
  suspension points whose results are inputs of the embedded handler: an
  `Option`/outcome argument stands for the awaited value, with `none` /
  a dedicated constructor standing for a thrown rejection.
* `crypto.createHmac(sha256, secret).update(msg).digest(hex)` is kept
  abstract as a function argument `hmac : String → String → String`;
  every theorem about signature checking quantifies over it.
* Outbound `sendTextMessage` calls are recorded as one tag per call in a
  `List Outbound`; message bodies are abbreviated to tags, and the 0-4
  optional palette messages of `sendAnalysisResults` are collapsed into
  one tag (no claim depends on their number, only the single-message
  fallback branches are counted by a claim).
-/

/-- Opaque structured color-analysis record (the core treats it only by
presence/absence; `tag` distinguishes concrete instances). -/
structure ColorAnalysis where
  tag : Nat
deriving DecidableEq, Repr

/-- Razorpay payment entity as read by the webhook handler and
`payments.fetch`: `id`, `order_id`, `status`, `error_reason`. -/
structure PaymentEntity where
  id : String
  order_id : String
  status : String
  error_reason : Option String
deriving DecidableEq, Repr

/-- The record stored in `PaymentManager.pendingPayments`
(see `createPaymentLink` / `updatePaymentFromWebhook`). -/
structure PaymentData where
  orderId : String
  phoneNumber : String
  amount : Nat
  currency : String
  status : String
  createdAt : Nat
  completedAt : Option Nat
  failedAt : Option Nat
  failureReason : Option String
  paymentId : Option String
  razorpayPayment : Option PaymentEntity
  analysis : Option ColorAnalysis
deriving DecidableEq, Repr

/-- The `pendingPayments` map, keyed by order id. -/
abbrev PaymentsMap := List (String × PaymentData)

/-- JS `Map.set`: replace the binding for `k` if present (keys are
unique in a JS map, so replacing the first occurrence suffices),
otherwise append the new binding. -/
def mapSet {β : Type} (m : List (String × β)) (k : String) (v : β) :
    List (String × β) :=
  match m with
  | [] => [(k, v)]
  | (k0, v0) :: rest =>
      if k0 == k then (k, v) :: rest else (k0, v0) :: mapSet rest k v

/-- Side effects fired by the payment reconciliation path:
`triggerPostPaymentActions(paymentData)` (document generation etc.). -/
inductive SideEffect where
  | postPaymentActions (pd : PaymentData)
deriving DecidableEq, Repr

/-- Embedding of `PaymentManager.updatePaymentFromWebhook(orderId, paymentEntity)`:
if the order is stored, unconditionally set `status = completed`,
record `paymentId` / `completedAt` / the raw entity, write back, and
trigger the post-payment actions; if absent, do nothing.  (The source
has no check of the previously stored status.) -/
def updatePaymentFromWebhook (m : PaymentsMap) (orderId : String)
    (pe : PaymentEntity) (now : Nat) : PaymentsMap × List SideEffect :=
  match m.lookup orderId with
  | some pd =>
      let pd1 : PaymentData :=
        { pd with
          status := "completed"
          paymentId := some pe.id
          completedAt := some now
          razorpayPayment := some pe }
      (mapSet m orderId pd1, [SideEffect.postPaymentActions pd1])
  | none => (m, [])

/-- Embedding of `PaymentManager.markPaymentFailed(orderId, paymentEntity)`: if the
order is stored, unconditionally set `status = failed` with
`failedAt` / `failureReason`; if absent, do nothing.  No side effects
are triggered on this path. -/
def markPaymentFailed (m : PaymentsMap) (orderId : String)
    (pe : PaymentEntity) (now : Nat) : PaymentsMap :=
  match m.lookup orderId with
  | some pd =>
      let pd1 : PaymentData :=
        { pd with
          status := "failed"
          failedAt := some now
          failureReason := some (pe.error_reason.getD "Unknown error") }
      mapSet m orderId pd1
  | none => m

/-- A Razorpay webhook payload as consumed by `handleWebhook`.  `raw`
stands for `JSON.stringify(payload)`, the byte string the HMAC is
computed over. -/
structure WebhookPayload where
  event : String
  paymentEntity : Option PaymentEntity
  orderEntityId : Option String
  raw : String
deriving DecidableEq, Repr

/-- Result shape `{ success, error? }` returned by `handleWebhook`. -/
structure WebhookResult where
  success : Bool
  error : Option String
deriving DecidableEq, Repr

/-- Embedding of `PaymentManager.handleWebhook(payload, signature)`: recompute the
HMAC of the serialized payload with the webhook secret; on mismatch
return a failure without touching any state; otherwise dispatch on the
event type (`payment.captured` → `updatePaymentFromWebhook`,
`payment.failed` → `markPaymentFailed`, `order.paid` and anything else
→ log only). -/
def handleWebhook (hmac : String → String → String) (secret : String)
    (m : PaymentsMap) (payload : WebhookPayload) (signature : String)
    (now : Nat) : WebhookResult × PaymentsMap × List SideEffect :=
  let expectedSignature := hmac secret payload.raw
  if signature != expectedSignature then
    ({ success := false, error := some "Invalid signature" }, m, [])
  else if payload.event == "payment.captured" then
    match payload.paymentEntity with
    | some pe =>
        let r := updatePaymentFromWebhook m pe.order_id pe now
        ({ success := true, error := none }, r.1, r.2)
    | none => ({ success := true, error := none }, m, [])
  else if payload.event == "payment.failed" then
    match payload.paymentEntity with
    | some pe =>
        ({ success := true, error := none }, markPaymentFailed m pe.order_id pe now, [])
    | none => ({ success := true, error := none }, m, [])
  else
    ({ success := true, error := none }, m, [])

/-- Result shape of `PaymentManager.verifyPayment`; `paymentData = none`
models the JS `undefined` returned when the order id is not in the
map. -/
structure VerifyResult where
  success : Bool
  error : Option String
  paymentData : Option PaymentData
deriving DecidableEq, Repr

/-- Embedding of `PaymentManager.verifyPayment(orderId, paymentId, signature)` (the
browser checkout path): check the HMAC of `orderId|paymentId` against
the key secret, fetch the payment from Razorpay (`fetched`, `none` for
a thrown fetch), require status `captured`, then update the stored
order if present — returning success even when no local record
exists. -/
def verifyPayment (hmac : String → String → String) (keySecret : String)
    (m : PaymentsMap) (razorpayOrderId razorpayPaymentId razorpaySignature : String)
    (fetched : Option PaymentEntity) (now : Nat) : VerifyResult × PaymentsMap :=
  let sign := razorpayOrderId ++ "|" ++ razorpayPaymentId
  let expectedSign := hmac keySecret sign
  if razorpaySignature != expectedSign then
    ({ success := false, error := some "Payment signature verification failed",
       paymentData := none }, m)
  else
    match fetched with
    | none =>
        ({ success := false,
           error := some "Payment verification failed. Please contact support.",
           paymentData := none }, m)
    | some payment =>
        if payment.status != "captured" then
          ({ success := false, error := some "Payment not captured",
             paymentData := none }, m)
        else
          match m.lookup razorpayOrderId with
          | some pd =>
              let pd1 : PaymentData :=
                { pd with
                  status := "completed"
                  paymentId := some razorpayPaymentId
                  completedAt := some now
                  razorpayPayment := some payment }
              ({ success := true, error := none, paymentData := some pd1 },
               mapSet m razorpayOrderId pd1)
          | none =>
              ({ success := true, error := none, paymentData := none }, m)

/-- Embedding of `PaymentManager.createPaymentLink(phoneNumber, analysis)` after the
gateway minted order id `minted`: store a fresh record with
`status = created` and return the payment URL. -/
def createPaymentLink (m : PaymentsMap) (baseUrl phoneNumber : String)
    (minted : String) (a : ColorAnalysis) (now : Nat) : PaymentsMap × String :=
  let pd : PaymentData :=
    { orderId := minted
      phoneNumber := phoneNumber
      amount := 69900
      currency := "INR"
      status := "created"
      createdAt := now
      completedAt := none
      failedAt := none
      failureReason := none
      paymentId := none
      razorpayPayment := none
      analysis := some a }
  (mapSet m minted pd, baseUrl ++ "/pay/" ++ minted)

/-- After `mapSet m k v`, looking up `k` finds `v`. -/
theorem lookup_mapSet {β : Type} (m : List (String × β)) (k : String) (v : β) :
    (mapSet m k v).lookup k = some v := by
  induction m with
  | nil => simp [mapSet, List.lookup]
  | cons hd tl ih =>
      rcases hd with ⟨k0, v0⟩
      by_cases h : k0 = k
      · subst h
        simp [mapSet, List.lookup]
      · have h1 : (k0 == k) = false := by simpa using h
        have h2 : (k == k0) = false := by
          simp only [beq_eq_false_iff_ne, ne_eq]
          exact fun hk => h hk.symm
        simp [mapSet, h1, List.lookup, h2, ih]

/-- Session states assigned anywhere in the code; `welcome` appears only
as a switch-case label in `handleTextMessage` (it is never assigned). -/
inductive SessState where
  | initial
  | welcome
  | guide_shown
  | waiting_for_photo
  | analyzing
  | results_shown
  | payment_pending
  | completed
deriving DecidableEq, Repr

/-- Payment info record attachable to a conversation
(`ConversationManager.setPaymentInfo`); only its presence and status
matter to the claims. -/
structure PaymentInfoRec where
  status : String
deriving DecidableEq, Repr

/-- The per-user conversation record: the fields created by
`ConversationManager.createConversation` plus the fields server.js
mutates (`analysis`, `paymentLink`, `pdfGenerated`). -/
structure Conversation where
  phoneNumber : String
  state : SessState
  createdAt : Nat
  lastActive : Nat
  messageCount : Nat
  name : String
  analysis : Option ColorAnalysis
  paymentInfo : Option PaymentInfoRec
  paymentLink : Option String
  pdfGenerated : Bool
deriving DecidableEq, Repr

/-- The `ConversationManager.conversations` map, keyed by phone number. -/
abbrev ConvMap := List (String × Conversation)

/-- Embedding of `ConversationManager.createConversation(phoneNumber, userInfo)`:
build a fresh record with `state = initial`, store it with `Map.set`
(which replaces any existing binding), and return it.  The source has
no existence check and no failure path. -/
def createConversation (m : ConvMap) (phoneNumber : String) (name : String)
    (now : Nat) : ConvMap × Conversation :=
  let conversation : Conversation :=
    { phoneNumber := phoneNumber
      state := SessState.initial
      createdAt := now
      lastActive := now
      messageCount := 0
      name := name
      analysis := none
      paymentInfo := none
      paymentLink := none
      pdfGenerated := false }
  (mapSet m phoneNumber conversation, conversation)

/-- Embedding of `ConversationManager.saveConversation`: refresh `lastActive` and
increment `messageCount` before writing back. -/
def saveConversation (c : Conversation) (now : Nat) : Conversation :=
  { c with lastActive := now, messageCount := c.messageCount + 1 }

/-- The removal condition of `cleanupOldConversations`: last active
before the cutoff, no analysis, and no generated PDF.  (The stored
`paymentInfo` is not consulted.) -/
def staleRemovable (cutoff : Nat) (c : Conversation) : Bool :=
  decide (c.lastActive < cutoff) && c.analysis.isNone && !c.pdfGenerated

/-- One iteration step of the cleanup loop: delete the entry under its
key if removable and count it. -/
def cleanupStep (cutoff : Nat) (acc : ConvMap × Nat) (e : String × Conversation) :
    ConvMap × Nat :=
  if staleRemovable cutoff e.2 then
    (acc.1.filter (fun p => p.1 != e.1), acc.2 + 1)
  else acc

/-- Embedding of `ConversationManager.cleanupOldConversations()`: iterate over the
entries of the map (JS `Map` iteration visits each original entry once
even when the current entry is deleted), deleting every conversation
that is older than the cutoff, has no analysis and has no generated
PDF; `cleanedCount` (the second component) is the number deleted.  The
JS function logs that count and returns `undefined`. -/
def cleanupOldConversations (m : ConvMap) (cutoff : Nat) : ConvMap × Nat :=
  m.foldl (cleanupStep cutoff) (m, 0)

/-- Predicate written from the specification claim for C8: remove
exactly the sessions whose `lastActive` precedes the window AND which
have no analysis AND no completed or pending payment. -/
def specCleanupRemoves (cutoff : Nat) (c : Conversation) : Bool :=
  decide (c.lastActive < cutoff) && c.analysis.isNone && c.paymentInfo.isNone

/-- The structured analysis result `{ success, analysis?, error? }`
returned by `GeminiColorAnalyzer.analyzeColors` /
`analyzeFromBuffer`. -/
structure AnalyzeResult where
  success : Bool
  analysis : Option ColorAnalysis
  error : Option String
deriving DecidableEq, Repr

/-- Outcome of the Gemini call as observed by the catch-block of
`analyzeColors`: a valid record, or an error classified by
`error.code === ECONNABORTED` (timeout), HTTP 429 (rate limit),
HTTP 400 (invalid image), or anything else (including the validation
failures of `analyzeFromBuffer`, which produce the same
`success = false` shape with their own message). -/
inductive GeminiOutcome where
  | ok (a : ColorAnalysis)
  | timedOut
  | rateLimited
  | invalidFormat
  | otherError (msg : String)
deriving DecidableEq, Repr

/-- Embedding of `GeminiColorAnalyzer.analyzeColors`: success returns the record;
every failure is caught and mapped to `success = false` with a
user-facing message — the call never rejects. -/
def analyzeColors : GeminiOutcome → AnalyzeResult
  | GeminiOutcome.ok a =>
      { success := true, analysis := some a, error := none }
  | GeminiOutcome.timedOut =>
      { success := false, analysis := none
        error := some "Analysis timed out. Please try with a smaller image." }
  | GeminiOutcome.rateLimited =>
      { success := false, analysis := none
        error := some "Too many requests. Please try again in a few moments." }
  | GeminiOutcome.invalidFormat =>
      { success := false, analysis := none
        error := some "Invalid image format. Please try with a clear JPEG or PNG image." }
  | GeminiOutcome.otherError msg =>
      { success := false, analysis := none, error := some msg }

/-- Outbound messages are recorded as one tag per `sendTextMessage`
call. -/
abbrev Outbound := String

/-- JS `text.toLowerCase()`, computed over the character data (the core
`String.toLower` is not kernel-reducible). -/
def toLowerStr (s : String) : String :=
  String.mk (s.data.map Char.toLower)

/-- JS `text.trim()`, computed over the character data. -/
def trimStr (s : String) : String :=
  String.mk (((s.data.dropWhile Char.isWhitespace).reverse.dropWhile
    Char.isWhitespace).reverse)

/-- Tests whether `sub` is a prefix of `s` (over character lists). -/
def isPrefixChars : List Char → List Char → Bool
  | [], _ => true
  | _ :: _, [] => false
  | c :: cs, d :: ds => c == d && isPrefixChars cs ds

/-- Tests whether `sub` occurs contiguously in `s` (over character lists). -/
def hasSubstringChars (sub : List Char) : List Char → Bool
  | [] => sub.isEmpty
  | c :: rest => isPrefixChars sub (c :: rest) || hasSubstringChars sub rest

/-- JS `String.prototype.includes(sub)` for the keyword classifier. -/
def includesStr (s sub : String) : Bool :=
  hasSubstringChars sub.data s.data

/-- Embedding of `handlePDFRequest(phoneNumber, conversation)`: refuse without an
analysis; otherwise await `createPaymentLink` (`link = none` models the
call throwing), and on success store the link and move to
`payment_pending`. -/
def handlePDFRequest (conv : Conversation) (link : Option String) :
    Conversation × List Outbound :=
  if conv.analysis.isNone then
    (conv, ["completeAnalysisFirst"])
  else
    match link with
    | some url =>
        ({ conv with state := SessState.payment_pending, paymentLink := some url },
         ["pdfPitch", "payHere:" ++ url])
    | none => (conv, ["paymentLinkError"])

/-- Embedding of `resetAnalysis(phoneNumber, conversation)`: back to `guide_shown`,
clearing the analysis and the payment link; two messages are sent. -/
def resetAnalysis (conv : Conversation) : Conversation × List Outbound :=
  ({ conv with state := SessState.guide_shown, analysis := none, paymentLink := none },
   ["startFresh", "guide"])

/-- Embedding of `shareResults(phoneNumber, conversation)`: message only, no
mutation. -/
def shareResults (conv : Conversation) : Conversation × List Outbound :=
  if conv.analysis.isNone then (conv, ["completeFirst"])
  else (conv, ["shareText"])

/-- Embedding of `checkPaymentStatus(phoneNumber, conversation)` in server.js:
announce the check, look up the payment by phone number (`payStatus` is
the status of the found record, `none` when absent); only a
`completed` payment generates the PDF (`pdfOk = false` models
`generatePDF` throwing, which is caught after the confirmation message
was already sent) and moves the session to `completed`. -/
def checkPaymentStatus (conv : Conversation) (payStatus : Option String)
    (pdfOk : Bool) : Conversation × List Outbound :=
  if payStatus == some "completed" then
    if pdfOk then
      ({ conv with state := SessState.completed, pdfGenerated := true },
       ["checking", "paymentConfirmed", "pdfReady"])
    else (conv, ["checking", "paymentConfirmed", "paymentCheckError"])
  else (conv, ["checking", "couldNotVerify"])

/-- Embedding of `handleTextMessage(phoneNumber, text, conversation)`: the keyword
state machine over `text.toLowerCase().trim()`.  The `completed` state
is not a case label and falls into `default`, which re-sends the
welcome message and sets `guide_shown` (without clearing the
analysis). -/
def handleTextMessage (text : String) (conv : Conversation)
    (link : Option String) (payStatus : Option String) (pdfOk : Bool) :
    Conversation × List Outbound :=
  let lowerText := trimStr (toLowerStr text)
  match conv.state with
  | SessState.initial | SessState.welcome =>
      if includesStr lowerText "start" || includesStr lowerText "begin" ||
         includesStr lowerText "hi" || includesStr lowerText "hello" then
        ({ conv with state := SessState.guide_shown }, ["welcome"])
      else
        ({ conv with state := SessState.guide_shown }, ["welcome"])
  | SessState.guide_shown =>
      if includesStr lowerText "ready" || includesStr lowerText "yes" ||
         includesStr lowerText "continue" || lowerText == "1" then
        ({ conv with state := SessState.waiting_for_photo }, ["photoInstructions"])
      else (conv, ["guide"])
  | SessState.waiting_for_photo => (conv, ["waitingReminder"])
  | SessState.analyzing => (conv, ["stillAnalyzing"])
  | SessState.results_shown =>
      if includesStr lowerText "pdf" || includesStr lowerText "guide" ||
         includesStr lowerText "buy" || lowerText == "1" then
        handlePDFRequest conv link
      else if includesStr lowerText "new" || includesStr lowerText "another" ||
              includesStr lowerText "again" || lowerText == "2" then
        resetAnalysis conv
      else if includesStr lowerText "share" || lowerText == "3" then
        shareResults conv
      else (conv, ["resultsOptions"])
  | SessState.payment_pending =>
      if includesStr lowerText "paid" || includesStr lowerText "payment" ||
         includesStr lowerText "done" then
        checkPaymentStatus conv payStatus pdfOk
      else (conv, ["completePaymentReminder"])
  | SessState.completed =>
      ({ conv with state := SessState.guide_shown }, ["welcome"])

/-- Embedding of `handleImageMessage(phoneNumber, image, conversation)`: outside
`waiting_for_photo` only an informational message is sent.  Otherwise
the ack is sent, the state is set to `analyzing`, the media is
downloaded (`download = false` models the download or temp-file write
throwing), the buffer is analyzed, and the temp file is removed
(`unlinkOk = false` models `unlinkSync` throwing); the catch block and
the failure branch both restore `waiting_for_photo`, while success
stores the analysis and shows the results. -/
def handleImageMessage (conv : Conversation) (download : Bool)
    (gem : GeminiOutcome) (unlinkOk : Bool) : Conversation × List Outbound :=
  if conv.state != SessState.waiting_for_photo then
    (conv, ["notReadyForPhoto"])
  else
    let c1 := { conv with state := SessState.analyzing }
    if !download then
      ({ c1 with state := SessState.waiting_for_photo },
       ["analyzingAck", "imageProcessingError"])
    else if !unlinkOk then
      ({ c1 with state := SessState.waiting_for_photo },
       ["analyzingAck", "imageProcessingError"])
    else
      let res := analyzeColors gem
      if res.success then
        ({ c1 with analysis := res.analysis, state := SessState.results_shown },
         ["analyzingAck", "analysisResults", "resultsOptions"])
      else
        ({ c1 with state := SessState.waiting_for_photo },
         ["analyzingAck", "analysisFailed:" ++ res.error.getD ""])

/-- Embedding of `handleInteractiveMessage(phoneNumber, interactive, conversation)`:
dispatch on the button id with no state guard. -/
def handleInteractiveMessage (conv : Conversation) (buttonId : String)
    (link : Option String) : Conversation × List Outbound :=
  if buttonId == "start_analysis" || buttonId == "1" then
    ({ conv with state := SessState.waiting_for_photo }, ["photoInstructions"])
  else if buttonId == "get_pdf" || buttonId == "2" then
    handlePDFRequest conv link
  else if buttonId == "new_analysis" || buttonId == "3" then
    resetAnalysis conv
  else if buttonId == "share_results" || buttonId == "4" then
    shareResults conv
  else (conv, ["didNotUnderstand"])

/-- One normalized inbound event, carrying the awaited collaborator
results its handler consumes (see the embedding conventions above). -/
inductive MsgEvent where
  | text (body : String) (link : Option String) (payStatus : Option String) (pdfOk : Bool)
  | image (download : Bool) (gem : GeminiOutcome) (unlinkOk : Bool)
  | interactive (buttonId : String) (link : Option String)
  | other
deriving Repr

/-- The message-type dispatch inside `handleMessage`. -/
def dispatchEvent (conv : Conversation) (ev : MsgEvent) :
    Conversation × List Outbound :=
  match ev with
  | MsgEvent.text body link payStatus pdfOk =>
      handleTextMessage body conv link payStatus pdfOk
  | MsgEvent.image download gem unlinkOk =>
      handleImageMessage conv download gem unlinkOk
  | MsgEvent.interactive buttonId link =>
      handleInteractiveMessage conv buttonId link
  | MsgEvent.other => (conv, ["defaultHelp"])

/-- Embedding of `handleMessage(message, contact)` for an existing conversation:
refresh `lastActive`, dispatch on the message type, then
`saveConversation`. -/
def handleMessage (conv : Conversation) (ev : MsgEvent) (now : Nat) :
    Conversation × List Outbound :=
  let c0 := { conv with lastActive := now }
  let r := dispatchEvent c0 ev
  (saveConversation r.1 now, r.2)

/-- Conversations reachable in the live system: freshly created by
`handleMessage` for an unseen user, or the result of handling one more
event. -/
inductive Reachable : Conversation → Prop where
  | created (m : ConvMap) (phoneNumber name : String) (now : Nat) :
      Reachable (createConversation m phoneNumber name now).2
  | step (c : Conversation) (ev : MsgEvent) (now : Nat) :
      Reachable c → Reachable (handleMessage c ev now).1

/-- The keyword classifier implicit in `handleTextMessage`: `true` iff
the lowercased, trimmed text matches none of the keywords the switch
branch for `st` tests (intent UNKNOWN for that state). -/
def unknownTextFor (st : SessState) (lowerText : String) : Bool :=
  match st with
  | SessState.initial | SessState.welcome =>
      !(includesStr lowerText "start" || includesStr lowerText "begin" ||
        includesStr lowerText "hi" || includesStr lowerText "hello")
  | SessState.guide_shown =>
      !(includesStr lowerText "ready" || includesStr lowerText "yes" ||
        includesStr lowerText "continue" || lowerText == "1")
  | SessState.waiting_for_photo => true
  | SessState.analyzing => true
  | SessState.results_shown =>
      !(includesStr lowerText "pdf" || includesStr lowerText "guide" ||
        includesStr lowerText "buy" || lowerText == "1" ||
        includesStr lowerText "new" || includesStr lowerText "another" ||
        includesStr lowerText "again" || lowerText == "2" ||
        includesStr lowerText "share" || lowerText == "3")
  | SessState.payment_pending =>
      !(includesStr lowerText "paid" || includesStr lowerText "payment" ||
        includesStr lowerText "done")
  | SessState.completed => true

/-- A demonstration HMAC for concrete witnesses: tags the signed text. -/
def hmacDemo : String → String → String := fun _ msg => "sig:" ++ msg

def analysisDemo : ColorAnalysis := { tag := 1 }

/-- Payments map holding exactly order `o1` for phone `u`, freshly
created (status `created`). -/
def payMapDemo : PaymentsMap :=
  (createPaymentLink [] "https://x" "u" "o1" analysisDemo 0).1

def peCaptured : PaymentEntity :=
  { id := "pay1", order_id := "o1", status := "captured", error_reason := none }

/-- The record `createPaymentLink` stores for the demo order. -/
def pdDemo : PaymentData :=
  { orderId := "o1", phoneNumber := "u", amount := 69900, currency := "INR"
    status := "created", createdAt := 0, completedAt := none, failedAt := none
    failureReason := none, paymentId := none, razorpayPayment := none
    analysis := some analysisDemo }

def wpCaptured : WebhookPayload :=
  { event := "payment.captured", paymentEntity := some peCaptured
    orderEntityId := none, raw := "rawjson" }

/-- First delivery of the `payment.captured` webhook for `o1`. -/
def webhookRun1 : WebhookResult × PaymentsMap × List SideEffect :=
  handleWebhook hmacDemo "sec" payMapDemo wpCaptured "sig:rawjson" 1

/-- Second, identical delivery against the state left by the first. -/
def webhookRun2 : WebhookResult × PaymentsMap × List SideEffect :=
  handleWebhook hmacDemo "sec" webhookRun1.2.1 wpCaptured "sig:rawjson" 2

/-- A validly signed `payment.captured` webhook reduces to
`updatePaymentFromWebhook` on the entity's order id. -/
theorem handleWebhook_captured (hmac : String → String → String)
    (secret : String) (m : PaymentsMap) (payload : WebhookPayload)
    (sig : String) (pe : PaymentEntity) (now : Nat)
    (hev : payload.event = "payment.captured")
    (hpe : payload.paymentEntity = some pe)
    (hsig : sig = hmac secret payload.raw) :
    handleWebhook hmac secret m payload sig now =
      ({ success := true, error := none },
       (updatePaymentFromWebhook m pe.order_id pe now).1,
       (updatePaymentFromWebhook m pe.order_id pe now).2) := by
  subst hsig
  simp [handleWebhook, hev, hpe]

/-- When the order is stored, `updatePaymentFromWebhook` fires exactly
one side effect and leaves the order `completed`. -/
theorem updatePayment_fires (m : PaymentsMap) (orderId : String)
    (pe : PaymentEntity) (now : Nat) (pd : PaymentData)
    (h : m.lookup orderId = some pd) :
    (updatePaymentFromWebhook m orderId pe now).2.length = 1 ∧
    ((updatePaymentFromWebhook m orderId pe now).1.lookup orderId).map
        PaymentData.status = some "completed" := by
  simp [updatePaymentFromWebhook, h, lookup_mapSet]

/-- C1 counterexample: duplicating the same validly signed
`payment.captured` delivery for `o1` fires the post-payment side effect
on BOTH deliveries (one invocation each), and the second delivery is
not a no-op — the stored map changes again (fresh `completedAt`). -/
theorem duplicate_captured_refires_side_effect :
    webhookRun1.2.2.length = 1 ∧ webhookRun2.2.2.length = 1 ∧
    webhookRun2.2.1 ≠ webhookRun1.2.1 := by decide

/-- C1 (amended): for every stored order, a validly signed
`payment.captured` delivery unconditionally transitions the stored
status to `completed` and invokes the post-payment side effect — on
every delivery, not only the first: there is no guard on the stored
status, so a duplicated delivery fires the side effect again. -/
theorem captured_delivery_always_fires (hmac : String → String → String)
    (secret : String) (m : PaymentsMap) (payload : WebhookPayload)
    (sig : String) (pe : PaymentEntity) (t1 t2 : Nat) (pd : PaymentData)
    (hev : payload.event = "payment.captured")
    (hpe : payload.paymentEntity = some pe)
    (hsig : sig = hmac secret payload.raw)
    (hord : m.lookup pe.order_id = some pd) :
    (handleWebhook hmac secret m payload sig t1).2.2.length = 1 ∧
    ((handleWebhook hmac secret m payload sig t1).2.1.lookup pe.order_id).map
        PaymentData.status = some "completed" ∧
    (handleWebhook hmac secret
        (handleWebhook hmac secret m payload sig t1).2.1 payload sig t2).2.2.length = 1 ∧
    ((handleWebhook hmac secret
        (handleWebhook hmac secret m payload sig t1).2.1 payload sig t2).2.1.lookup
          pe.order_id).map PaymentData.status = some "completed" := by
  rw [handleWebhook_captured hmac secret m payload sig pe t1 hev hpe hsig]
  have h1 := updatePayment_fires m pe.order_id pe t1 pd hord
  refine ⟨h1.1, h1.2, ?_⟩
  rw [handleWebhook_captured hmac secret _ payload sig pe t2 hev hpe hsig]
  obtain ⟨pd1, hpd1⟩ : ∃ q, ((updatePaymentFromWebhook m pe.order_id pe t1).1.lookup
      pe.order_id) = some q := by
    have := h1.2
    cases hq : ((updatePaymentFromWebhook m pe.order_id pe t1).1.lookup pe.order_id) with
    | none => rw [hq] at this; simp at this
    | some q => exact ⟨q, rfl⟩
  have h2 := updatePayment_fires _ pe.order_id pe t2 pd1 hpd1
  exact ⟨h2.1, h2.2⟩

/-- Witness for `captured_delivery_always_fires` at the concrete demo
order. -/
theorem captured_delivery_always_fires_witness :
    (wpCaptured.event = "payment.captured" ∧
     wpCaptured.paymentEntity = some peCaptured ∧
     "sig:rawjson" = hmacDemo "sec" wpCaptured.raw ∧
     payMapDemo.lookup peCaptured.order_id = some pdDemo) ∧
    ((handleWebhook hmacDemo "sec" payMapDemo wpCaptured "sig:rawjson" 1).2.2.length = 1 ∧
     ((handleWebhook hmacDemo "sec" payMapDemo wpCaptured "sig:rawjson" 1).2.1.lookup
         peCaptured.order_id).map PaymentData.status = some "completed" ∧
     (handleWebhook hmacDemo "sec"
         (handleWebhook hmacDemo "sec" payMapDemo wpCaptured "sig:rawjson" 1).2.1
         wpCaptured "sig:rawjson" 2).2.2.length = 1 ∧
     ((handleWebhook hmacDemo "sec"
         (handleWebhook hmacDemo "sec" payMapDemo wpCaptured "sig:rawjson" 1).2.1
         wpCaptured "sig:rawjson" 2).2.1.lookup peCaptured.order_id).map
           PaymentData.status = some "completed") :=
  ⟨⟨by decide, by decide, by decide, by decide⟩,
   captured_delivery_always_fires hmacDemo "sec" payMapDemo wpCaptured
     "sig:rawjson" peCaptured 1 2 pdDemo (by decide) (by decide) (by decide) (by decide)⟩

/-- The demo map after `payment.failed` was applied to `o1`. -/
def payMapFailed : PaymentsMap :=
  markPaymentFailed payMapDemo "o1"
    { id := "pay1", order_id := "o1", status := "failed"
      error_reason := some "declined" } 1

/-- C2 counterexample: an order whose status is the terminal `failed`
transitions to `completed` when a later `payment.captured` event is
applied — the status does leave a terminal value. -/
theorem failed_order_moves_to_completed :
    (payMapFailed.lookup "o1").map PaymentData.status = some "failed" ∧
    (((updatePaymentFromWebhook payMapFailed "o1" peCaptured 2).1).lookup "o1").map
        PaymentData.status = some "completed" := by decide

/-- C2 (amended): the stored status is not monotonic — for every stored
order, `payment.captured` handling sets its status to `completed` and
`payment.failed` handling sets it to `failed`, unconditionally and
regardless of whether the current status is terminal; the status after
a sequence of events is whatever the last applicable event wrote. -/
theorem status_overwritten_unconditionally (m : PaymentsMap)
    (orderId : String) (pe1 pe2 : PaymentEntity) (t1 t2 : Nat)
    (pd : PaymentData) (h : m.lookup orderId = some pd) :
    (((updatePaymentFromWebhook m orderId pe1 t1).1).lookup orderId).map
        PaymentData.status = some "completed" ∧
    ((markPaymentFailed m orderId pe2 t2).lookup orderId).map
        PaymentData.status = some "failed" := by
  constructor <;> simp [updatePaymentFromWebhook, markPaymentFailed, h, lookup_mapSet]

/-- Witness for `status_overwritten_unconditionally` at the demo
order. -/
theorem status_overwritten_unconditionally_witness :
    payMapDemo.lookup "o1" = some pdDemo ∧
    ((((updatePaymentFromWebhook payMapDemo "o1" peCaptured 1).1).lookup "o1").map
        PaymentData.status = some "completed" ∧
     ((markPaymentFailed payMapDemo "o1" peCaptured 2).lookup "o1").map
        PaymentData.status = some "failed") :=
  ⟨by decide,
   status_overwritten_unconditionally payMapDemo "o1" peCaptured peCaptured 1 2
     pdDemo (by decide)⟩

/-- C3: a webhook delivery whose signature differs from the HMAC of the
payload under the webhook secret is rejected: `handleWebhook` returns
`success = false` with the `Invalid signature` error, leaves the
payments map exactly as it was, and fires no side effect. -/
theorem webhook_invalid_signature_no_mutation (hmac : String → String → String)
    (secret : String) (m : PaymentsMap) (payload : WebhookPayload)
    (signature : String) (now : Nat)
    (h : signature ≠ hmac secret payload.raw) :
    handleWebhook hmac secret m payload signature now =
      ({ success := false, error := some "Invalid signature" }, m, []) := by
  simp [handleWebhook, h]

/-- Witness for `webhook_invalid_signature_no_mutation` at a concrete
mismatched signature. -/
theorem webhook_invalid_signature_no_mutation_witness :
    ("bad" : String) ≠ hmacDemo "sec" wpCaptured.raw ∧
    handleWebhook hmacDemo "sec" payMapDemo wpCaptured "bad" 3 =
      ({ success := false, error := some "Invalid signature" }, payMapDemo, []) :=
  ⟨by decide,
   webhook_invalid_signature_no_mutation hmacDemo "sec" payMapDemo wpCaptured
     "bad" 3 (by decide)⟩

/-- C9: for an order id with no entry in the payments map, both webhook
mutation points are no-ops — `updatePaymentFromWebhook` returns the map
unchanged with no side effect, and `markPaymentFailed` returns the map
unchanged; neither creates a record. -/
theorem webhook_absent_order_noop (m : PaymentsMap) (orderId : String)
    (pe1 pe2 : PaymentEntity) (t1 t2 : Nat)
    (h : m.lookup orderId = none) :
    updatePaymentFromWebhook m orderId pe1 t1 = (m, []) ∧
    markPaymentFailed m orderId pe2 t2 = m := by
  constructor <;> simp [updatePaymentFromWebhook, markPaymentFailed, h]

/-- Witness for `webhook_absent_order_noop`: order `o9` is not in the
demo map. -/
theorem webhook_absent_order_noop_witness :
    payMapDemo.lookup "o9" = none ∧
    (updatePaymentFromWebhook payMapDemo "o9" peCaptured 1 = (payMapDemo, []) ∧
     markPaymentFailed payMapDemo "o9" peCaptured 2 = payMapDemo) :=
  ⟨by decide, webhook_absent_order_noop payMapDemo "o9" peCaptured peCaptured 1 2 (by decide)⟩

/-- C10: concrete run of the browser-path verification in which the
Razorpay signature is valid and the fetched payment is `captured`, but
order `o2` has no local record: `verifyPayment` still returns
`success = true`, with `paymentData = none` (JS `undefined`), and the
payments map is unchanged. -/
theorem verifyPayment_success_without_local_record :
    verifyPayment hmacDemo "key" payMapDemo "o2" "p1" "sig:o2|p1"
        (some { id := "p1", order_id := "o2", status := "captured"
                error_reason := none }) 7 =
      ({ success := true, error := none, paymentData := none }, payMapDemo) := by
  decide

/-- An already-stored session for phone `u`, advanced to
`guide_shown`. -/
def convExisting : Conversation :=
  { (createConversation [] "u" "Friend" 0).2 with
    state := SessState.guide_shown, messageCount := 5 }

def convMapExisting : ConvMap := [("u", convExisting)]

/-- C7 counterexample: calling `createConversation` for a phone number
that already has a session does not fail — it returns a fresh
`initial`-state session and silently replaces the stored one. -/
theorem create_replaces_existing :
    (createConversation convMapExisting "u" "User" 9).2.state = SessState.initial ∧
    ((createConversation convMapExisting "u" "User" 9).1.lookup "u").map
        Conversation.state = some SessState.initial ∧
    (createConversation convMapExisting "u" "User" 9).1.lookup "u" ≠
      some convExisting := by decide

/-- C7 (amended): `createConversation` never fails: for every map and
userId it returns a new session with state `initial` and
unconditionally stores it under the userId, replacing any existing
session. -/
theorem create_always_overwrites (m : ConvMap) (phoneNumber name : String)
    (now : Nat) :
    (createConversation m phoneNumber name now).2.state = SessState.initial ∧
    (createConversation m phoneNumber name now).1.lookup phoneNumber =
      some (createConversation m phoneNumber name now).2 := by
  exact ⟨rfl, lookup_mapSet m phoneNumber _⟩

/-- Unfolding of the cleanup fold: the surviving entries are those of
the accumulator whose key is not the key of a removable entry of the
remaining iteration list, and the count grows by the number of
removable remaining entries. -/
theorem cleanup_foldl_spec (cutoff : Nat) (rest : List (String × Conversation)) :
    ∀ (cur : ConvMap) (cnt : Nat),
      rest.foldl (cleanupStep cutoff) (cur, cnt) =
        (cur.filter (fun p =>
            !(rest.any (fun e => staleRemovable cutoff e.2 && p.1 == e.1))),
         cnt + (rest.filter (fun e => staleRemovable cutoff e.2)).length) := by
  induction rest with
  | nil => intro cur cnt; simp
  | cons e rest ih =>
      intro cur cnt
      by_cases h : staleRemovable cutoff e.2
      · rw [List.foldl_cons, show cleanupStep cutoff (cur, cnt) e =
              (cur.filter (fun p => p.1 != e.1), cnt + 1) from by
            simp [cleanupStep, h], ih, List.filter_filter]
        refine congrArg₂ Prod.mk ?_ ?_
        · apply List.filter_congr
          intro p _
          simp [h, Bool.and_comm, bne]
        · rw [List.filter_cons]
          simp [h, Nat.add_assoc, Nat.add_comm 1]
      · rw [List.foldl_cons, show cleanupStep cutoff (cur, cnt) e = (cur, cnt) from by
            simp [cleanupStep, h], ih]
        refine congrArg₂ Prod.mk ?_ ?_
        · apply List.filter_congr
          intro p _
          simp [h]
        · rw [List.filter_cons]
          simp [h]

/-- C8 (amended): on a conversations map with distinct keys (every JS
`Map` has them), `cleanupOldConversations` removes exactly the sessions
whose `lastActive` precedes the cutoff AND which have no analysis AND
whose PDF was not generated — the stored payment info is not consulted
— leaving every other session unchanged in place; the counted
`cleanedCount` (logged by the source, not returned) equals the number
of removed sessions. -/
theorem cleanup_removes_exactly_stale (m : ConvMap) (cutoff : Nat)
    (hn : (m.map Prod.fst).Nodup) :
    (cleanupOldConversations m cutoff).1 =
      m.filter (fun p => !staleRemovable cutoff p.2) ∧
    (cleanupOldConversations m cutoff).2 =
      (m.filter (fun p => staleRemovable cutoff p.2)).length := by
  unfold cleanupOldConversations
  rw [cleanup_foldl_spec cutoff m m 0]
  refine ⟨?_, by simp⟩
  apply List.filter_congr
  intro p hp
  have hkey : (m.any fun e => staleRemovable cutoff e.2 && p.1 == e.1) =
      staleRemovable cutoff p.2 := by
    by_cases hsr : staleRemovable cutoff p.2
    · rw [hsr]
      rw [List.any_eq_true]
      exact ⟨p, hp, by simp [hsr]⟩
    · rw [show staleRemovable cutoff p.2 = false from by simpa using hsr]
      rw [List.any_eq_false]
      intro e he
      by_cases hk : p.1 = e.1
      · have hpe : p = e := List.inj_on_of_nodup_map hn hp he hk
        rw [← hpe]
        simp [show staleRemovable cutoff p.2 = false from by simpa using hsr]
      · simp [hk]
  rw [hkey]

/-- Witness for `cleanup_removes_exactly_stale` on a concrete two-entry
map (one stale removable session, one active one). -/
theorem cleanup_removes_exactly_stale_witness :
    ((([("u", convExisting), ("v", { convExisting with lastActive := 50 })] :
        ConvMap).map Prod.fst).Nodup) ∧
    ((cleanupOldConversations
        [("u", convExisting), ("v", { convExisting with lastActive := 50 })] 10).1 =
      ([("u", convExisting), ("v", { convExisting with lastActive := 50 })] :
        ConvMap).filter (fun p => !staleRemovable 10 p.2) ∧
     (cleanupOldConversations
        [("u", convExisting), ("v", { convExisting with lastActive := 50 })] 10).2 =
      (([("u", convExisting), ("v", { convExisting with lastActive := 50 })] :
        ConvMap).filter (fun p => staleRemovable 10 p.2)).length) :=
  ⟨by decide,
   cleanup_removes_exactly_stale
     [("u", convExisting), ("v", { convExisting with lastActive := 50 })] 10
     (by decide)⟩

/-- An old session with a pending payment attached (`paymentInfo`
status `created`), no analysis, no generated PDF. -/
def convPendingPay : Conversation :=
  { (createConversation [] "u" "Friend" 0).2 with
    paymentInfo := some { status := "created" } }

/-- C8 counterexample: the cleanup removes (and counts) a session that
holds a pending payment — the claim's removal condition
(`specCleanupRemoves`, which requires no completed or pending payment)
is false for it, yet the session is deleted: the code tests
`pdfGenerated`, not the payment info. -/
theorem cleanup_removes_pending_payment_session :
    specCleanupRemoves 10 convPendingPay = false ∧
    cleanupOldConversations [("u", convPendingPay)] 10 = ([], 1) := by decide

/-- C4: a session in `waiting_for_photo` receiving an image event whose
analysis fails (timeout, rate limit, invalid format, validation or
unknown error — every `success = false` result of `analyzeColors`) or
whose handling throws (media download / temp-file write / temp-file
removal rejection) ends with `state = waiting_for_photo`, never
`analyzing`. -/
theorem analysis_failure_recovers (conv : Conversation) (download : Bool)
    (gem : GeminiOutcome) (unlinkOk : Bool)
    (hst : conv.state = SessState.waiting_for_photo)
    (hfail : (analyzeColors gem).success = false ∨ download = false ∨
             unlinkOk = false) :
    (handleImageMessage conv download gem unlinkOk).1.state =
      SessState.waiting_for_photo ∧
    (handleImageMessage conv download gem unlinkOk).1.state ≠
      SessState.analyzing := by
  have hmain : (handleImageMessage conv download gem unlinkOk).1.state =
      SessState.waiting_for_photo := by
    cases download <;> cases unlinkOk <;> cases gem <;>
      simp_all [handleImageMessage, analyzeColors, hst]
  exact ⟨hmain, by rw [hmain]; exact fun hc => nomatch hc⟩

/-- A session parked in `waiting_for_photo` for the C4 witness. -/
def convWaiting : Conversation :=
  { (createConversation [] "u" "Friend" 0).2 with
    state := SessState.waiting_for_photo }

/-- Witness for `analysis_failure_recovers` at a concrete timed-out
analysis. -/
theorem analysis_failure_recovers_witness :
    (convWaiting.state = SessState.waiting_for_photo ∧
     ((analyzeColors GeminiOutcome.timedOut).success = false ∨
      (true : Bool) = false ∨ (true : Bool) = false)) ∧
    ((handleImageMessage convWaiting true GeminiOutcome.timedOut true).1.state =
       SessState.waiting_for_photo ∧
     (handleImageMessage convWaiting true GeminiOutcome.timedOut true).1.state ≠
       SessState.analyzing) :=
  ⟨⟨by decide, Or.inl (by decide)⟩,
   analysis_failure_recovers convWaiting true GeminiOutcome.timedOut true
     (by decide) (Or.inl (by decide))⟩

/-- Every branch of `handleTextMessage` either returns the conversation
untouched or assigns a state literal different from `initial` and
`welcome` (no branch assigns those states). -/
theorem handleTextMessage_unchanged_or_left_initial (text : String)
    (conv : Conversation) (link : Option String) (pay : Option String)
    (pdfOk : Bool) :
    (handleTextMessage text conv link pay pdfOk).1 = conv ∨
    ((handleTextMessage text conv link pay pdfOk).1.state ≠ SessState.initial ∧
     (handleTextMessage text conv link pay pdfOk).1.state ≠ SessState.welcome) := by
  obtain ⟨pn, st, ca, la, mc, nm, an, pi, pl, pg⟩ := conv
  rcases link with _ | url <;> cases st <;>
    simp only [handleTextMessage, handlePDFRequest, resetAnalysis, shareResults,
      checkPaymentStatus] <;>
    first
    | (split_ifs <;>
        first
        | exact Or.inl rfl
        | exact Or.inr ⟨by simp, by simp⟩)
    | exact Or.inl rfl
    | exact Or.inr ⟨by simp, by simp⟩
    | simp

/-- Same fact for `handleImageMessage`. -/
theorem handleImageMessage_unchanged_or_left_initial (conv : Conversation)
    (download : Bool) (gem : GeminiOutcome) (unlinkOk : Bool) :
    (handleImageMessage conv download gem unlinkOk).1 = conv ∨
    ((handleImageMessage conv download gem unlinkOk).1.state ≠ SessState.initial ∧
     (handleImageMessage conv download gem unlinkOk).1.state ≠ SessState.welcome) := by
  obtain ⟨pn, st, ca, la, mc, nm, an, pi, pl, pg⟩ := conv
  simp only [handleImageMessage]
  first
  | (split_ifs <;>
      first
      | exact Or.inl rfl
      | exact Or.inr ⟨by simp, by simp⟩)
  | exact Or.inl rfl
  | exact Or.inr ⟨by simp, by simp⟩
  | simp

/-- Same fact for `handleInteractiveMessage`. -/
theorem handleInteractiveMessage_unchanged_or_left_initial (conv : Conversation)
    (buttonId : String) (link : Option String) :
    (handleInteractiveMessage conv buttonId link).1 = conv ∨
    ((handleInteractiveMessage conv buttonId link).1.state ≠ SessState.initial ∧
     (handleInteractiveMessage conv buttonId link).1.state ≠ SessState.welcome) := by
  obtain ⟨pn, st, ca, la, mc, nm, an, pi, pl, pg⟩ := conv
  rcases link with _ | url <;>
    simp only [handleInteractiveMessage, handlePDFRequest, resetAnalysis,
      shareResults] <;>
    first
    | (split_ifs <;>
        first
        | exact Or.inl rfl
        | exact Or.inr ⟨by simp, by simp⟩)
    | exact Or.inl rfl
    | exact Or.inr ⟨by simp, by simp⟩
    | simp

/-- If handling an event leaves the session in `initial` or `welcome`,
the dispatched handler returned the conversation untouched, so the
state and the analysis are those of the incoming session. -/
theorem step_initial_only_if_unchanged (c : Conversation) (ev : MsgEvent)
    (now : Nat)
    (h : (handleMessage c ev now).1.state = SessState.initial ∨
         (handleMessage c ev now).1.state = SessState.welcome) :
    (handleMessage c ev now).1.state = c.state ∧
    (handleMessage c ev now).1.analysis = c.analysis := by
  cases ev with
  | text body link pay pdfOk =>
      rcases handleTextMessage_unchanged_or_left_initial body
          { c with lastActive := now } link pay pdfOk with heq | hne
      · simp [handleMessage, dispatchEvent, saveConversation, heq]
      · exfalso
        simp only [handleMessage, dispatchEvent, saveConversation] at h
        rcases h with h | h
        · exact hne.1 h
        · exact hne.2 h
  | image download gem unlinkOk =>
      rcases handleImageMessage_unchanged_or_left_initial
          { c with lastActive := now } download gem unlinkOk with heq | hne
      · simp [handleMessage, dispatchEvent, saveConversation, heq]
      · exfalso
        simp only [handleMessage, dispatchEvent, saveConversation] at h
        rcases h with h | h
        · exact hne.1 h
        · exact hne.2 h
  | interactive buttonId link =>
      rcases handleInteractiveMessage_unchanged_or_left_initial
          { c with lastActive := now } buttonId link with heq | hne
      · simp [handleMessage, dispatchEvent, saveConversation, heq]
      · exfalso
        simp only [handleMessage, dispatchEvent, saveConversation] at h
        rcases h with h | h
        · exact hne.1 h
        · exact hne.2 h
  | other =>
      exact ⟨rfl, rfl⟩

/-- A funnel trace: fresh session for `u`. -/
def funnel0 : Conversation := (createConversation [] "u" "Friend" 0).2

/-- After "hi": `guide_shown`. -/
def funnel1 : Conversation :=
  (handleMessage funnel0 (MsgEvent.text "hi" none none true) 0).1

/-- After "ready": `waiting_for_photo`. -/
def funnel2 : Conversation :=
  (handleMessage funnel1 (MsgEvent.text "ready" none none true) 0).1

/-- After a successfully analyzed photo: `results_shown` with the
analysis stored. -/
def funnel3 : Conversation :=
  (handleMessage funnel2
    (MsgEvent.image true (GeminiOutcome.ok analysisDemo) true) 0).1

/-- After "buy" with a successfully created payment link:
`payment_pending`. -/
def funnel4 : Conversation :=
  (handleMessage funnel3 (MsgEvent.text "buy" (some "L") none true) 0).1

/-- After "paid" with a completed payment and a generated PDF:
`completed`, analysis still stored. -/
def funnel5 : Conversation :=
  (handleMessage funnel4 (MsgEvent.text "paid" none (some "completed") true) 0).1

/-- C5 counterexample: the completed-funnel session `funnel5` is
reachable and still holds its analysis; handling one more free-text
message ("xyzzy") lands in the switch `default`, which moves the state
to `guide_shown` WITHOUT clearing the analysis — a session whose
analysis is non-null while its state is neither `results_shown` nor
`payment_pending` nor `completed`. -/
theorem completed_fallback_keeps_analysis :
    Reachable funnel5 ∧
    (handleMessage funnel5 (MsgEvent.text "xyzzy" none none true) 0).1.analysis.isSome
      = true ∧
    (handleMessage funnel5 (MsgEvent.text "xyzzy" none none true) 0).1.state =
      SessState.guide_shown := by
  refine ⟨?_, by decide, by decide⟩
  exact Reachable.step _ _ _ (Reachable.step _ _ _ (Reachable.step _ _ _
    (Reachable.step _ _ _ (Reachable.step _ _ _
      (Reachable.created [] "u" "Friend" 0)))))

/-- C5 (amended): for every reachable session, a non-null analysis
implies only that the state has left `initial` (and the never-assigned
`welcome`): the fallback from `completed` can carry a non-null analysis
back into `guide_shown` and from there into `waiting_for_photo` and
`analyzing`, so no stronger state restriction holds; only a session in
state `initial` is guaranteed to have a null analysis. -/
theorem analysis_only_after_initial (c : Conversation) (h : Reachable c) :
    c.analysis.isSome = true →
    c.state ≠ SessState.initial ∧ c.state ≠ SessState.welcome := by
  induction h with
  | created m phoneNumber name now =>
      intro ha
      simp [createConversation] at ha
  | step c0 ev now hr ih =>
      intro ha
      by_cases hi : (handleMessage c0 ev now).1.state = SessState.initial ∨
          (handleMessage c0 ev now).1.state = SessState.welcome
      · exfalso
        obtain ⟨hs, han⟩ := step_initial_only_if_unchanged c0 ev now hi
        have ih2 := ih (by rw [han] at ha; exact ha)
        rcases hi with hi | hi <;> rw [hs] at hi
        · exact ih2.1 hi
        · exact ih2.2 hi
      · push_neg at hi
        exact hi

/-- Witness for `analysis_only_after_initial` at the reachable
`results_shown` session `funnel3`. -/
theorem analysis_only_after_initial_witness :
    (Reachable funnel3 ∧ funnel3.analysis.isSome = true) ∧
    (funnel3.state ≠ SessState.initial ∧ funnel3.state ≠ SessState.welcome) :=
  ⟨⟨Reachable.step _ _ _ (Reachable.step _ _ _ (Reachable.step _ _ _
      (Reachable.created [] "u" "Friend" 0))), by decide⟩,
   analysis_only_after_initial funnel3
     (Reachable.step _ _ _ (Reachable.step _ _ _ (Reachable.step _ _ _
       (Reachable.created [] "u" "Friend" 0)))) (by decide)⟩

/-- C6 counterexample: in state `initial`, the text "xyzzy" matches no
recognized keyword (intent UNKNOWN), yet handling it does NOT leave the
state unchanged — the initial/welcome branch moves the session to
`guide_shown` on both sides of its if. -/
theorem unknown_text_changes_initial_state :
    unknownTextFor SessState.initial (trimStr (toLowerStr "xyzzy")) = true ∧
    funnel0.state = SessState.initial ∧
    (handleTextMessage "xyzzy" funnel0 none none true).1.state =
      SessState.guide_shown := by decide

/-- C6 (amended): an unrecognized free-text message (UNKNOWN intent for
the current state) always produces exactly one outbound message; in
the five states `guide_shown`, `waiting_for_photo`, `analyzing`,
`results_shown`, `payment_pending` it leaves the session completely
unchanged, while in `initial`, `welcome` and `completed` (the switch
default) it moves the state to `guide_shown` (all other fields
unchanged, the analysis included). -/
theorem unknown_text_one_message (conv : Conversation) (text : String)
    (link : Option String) (pay : Option String) (pdfOk : Bool)
    (h : unknownTextFor conv.state (trimStr (toLowerStr text)) = true) :
    (handleTextMessage text conv link pay pdfOk).2.length = 1 ∧
    ((conv.state = SessState.initial ∨ conv.state = SessState.welcome ∨
      conv.state = SessState.completed) →
        (handleTextMessage text conv link pay pdfOk).1 =
          { conv with state := SessState.guide_shown }) ∧
    ((conv.state = SessState.guide_shown ∨
      conv.state = SessState.waiting_for_photo ∨
      conv.state = SessState.analyzing ∨
      conv.state = SessState.results_shown ∨
      conv.state = SessState.payment_pending) →
        (handleTextMessage text conv link pay pdfOk).1 = conv) := by
  obtain ⟨pn, st, ca, la, mc, nm, an, pi, pl, pg⟩ := conv
  cases st <;> simp_all [handleTextMessage, unknownTextFor]

/-- Witness for `unknown_text_one_message`: "zzz" in `guide_shown`. -/
theorem unknown_text_one_message_witness :
    unknownTextFor convExisting.state (trimStr (toLowerStr "zzz")) = true ∧
    ((handleTextMessage "zzz" convExisting none none true).2.length = 1 ∧
     ((convExisting.state = SessState.initial ∨
       convExisting.state = SessState.welcome ∨
       convExisting.state = SessState.completed) →
         (handleTextMessage "zzz" convExisting none none true).1 =
           { convExisting with state := SessState.guide_shown }) ∧
     ((convExisting.state = SessState.guide_shown ∨
       convExisting.state = SessState.waiting_for_photo ∨
       convExisting.state = SessState.analyzing ∨
       convExisting.state = SessState.results_shown ∨
       convExisting.state = SessState.payment_pending) →
         (handleTextMessage "zzz" convExisting none none true).1 = convExisting)) :=
  ⟨by decide, unknown_text_one_message convExisting "zzz" none none true (by decide)⟩
